import Mathlib

/-!
# car_api — shallow embedding and verification

A shallow embedding of the `car_api` repository (FastAPI + SQLAlchemy CRUD
backend for users, brands and cars) and proofs about the claims of its
specification.

Modelling conventions:
* The relational store is a `DB` record of three lists; SQLAlchemy queries
  become list traversals.  Auto-increment ids are modelled as max+1.
* Request handlers become pure functions returning `Except ApiError α`;
  raising `HTTPException(code, detail)` in the source becomes returning
  `.error (kind detail)`.  A handler that raises before its `db.commit()` has
  mutated nothing, which the embedding reflects by returning no new `DB` on
  the error path.
* Python strings are Lean `String`s; `.strip()`, `.upper()`, `.lower()`,
  `.replace("-", "")` are modelled character-wise over `String.data`
  (`pyStrip`, `pyUpper`, `pyLower`, `pyReplaceDash`).  The ASCII fragment is
  modelled exactly; non-ASCII case mapping differences are irrelevant to the
  validated formats, which only accept ASCII.
* Pydantic schema validation becomes a `validate` function per schema,
  running the same field validators in field order and the model validators
  last, short-circuiting at the first failure (pydantic collects all errors;
  only success/failure and normalization matter here).  Schema failures carry
  `ApiError.validation` (HTTP 422).
* The authenticated identity is a `Credential`: the `HTTPBearer` dependency
  plus `verify_token`/`get_current_user` are collapsed into
  `get_current_user : Credential → DB → Except ApiError UserRec`, with
  `.missing` (no Authorization header), `.invalid` (bad signature / expired /
  wrong type / non-integer subject) and `.bearer uid` (a valid access token
  whose subject is `uid`).  All of its failures are `unauthorized`, as the
  spec and the repository's tests require.
-/

namespace CarApi

/-! ## Character classes and Python string primitives -/

/-- `[A-Z]` as a codepoint range. -/
def isUpperAlphaChar (c : Char) : Bool := 65 ≤ c.toNat && c.toNat ≤ 90

/-- `[a-z]` as a codepoint range. -/
def isLowerAlphaChar (c : Char) : Bool := 97 ≤ c.toNat && c.toNat ≤ 122

/-- `[A-Za-z]`. -/
def isAlphaChar (c : Char) : Bool := isUpperAlphaChar c || isLowerAlphaChar c

/-- `[0-9]`. -/
def isDigitChar (c : Char) : Bool := 48 ≤ c.toNat && c.toNat ≤ 57

/-- The whitespace characters removed by Python's `str.strip()` and matched
by the regex class `\s` (ASCII fragment: space, tab, LF, CR, VT, FF). -/
def isPySpaceChar (c : Char) : Bool :=
  c.toNat == 32 || c.toNat == 9 || c.toNat == 10 || c.toNat == 13 ||
  c.toNat == 11 || c.toNat == 12

/-- Python `str.strip()`: drop leading and trailing whitespace. -/
def pyStrip (s : String) : String :=
  ⟨((s.data.dropWhile isPySpaceChar).reverse.dropWhile isPySpaceChar).reverse⟩

/-- ASCII uppercasing of one character, as Python `str.upper()` acts on the
ASCII range. -/
def pyUpperChar (c : Char) : Char :=
  if 97 ≤ c.toNat ∧ c.toNat ≤ 122 then Char.ofNat (c.toNat - 32) else c

/-- ASCII lowercasing of one character, as Python `str.lower()` acts on the
ASCII range. -/
def pyLowerChar (c : Char) : Char :=
  if 65 ≤ c.toNat ∧ c.toNat ≤ 90 then Char.ofNat (c.toNat + 32) else c

/-- Python `str.upper()` (ASCII fragment). -/
def pyUpper (s : String) : String := ⟨s.data.map pyUpperChar⟩

/-- Python `str.lower()` (ASCII fragment). -/
def pyLower (s : String) : String := ⟨s.data.map pyLowerChar⟩

/-- Python `value.replace("-", "")`: remove every hyphen. -/
def pyReplaceDash (s : String) : String := ⟨s.data.filter (fun c => c != '-')⟩

/-- Case-insensitive substring test: the semantics of the SQL
`column ILIKE '%term%'` filters built by the list endpoints. -/
def strILike (hay pat : String) : Bool :=
  let h := hay.data.map pyLowerChar
  let p := pat.data.map pyLowerChar
  (List.range (h.length + 1)).any (fun i => p.isPrefixOf (h.drop i))

/-! ## Configuration (`car_api/core/settings.py`)

`Settings` loads `MIN_FACTORY_YEAR`, `MAX_FUTURE_YEAR`, `MAX_PRICE`,
`MAX_MILEAGE`, `MAX_BRAND_DESCRIPTION` from the environment; the validators
read them as process-wide constants.  The embedding passes them explicitly,
together with `datetime.now().year` (`currentYear`). -/

structure Config where
  MIN_FACTORY_YEAR : Int
  MAX_FUTURE_YEAR : Int
  MAX_PRICE : Int
  MAX_MILEAGE : Int
  MAX_BRAND_DESCRIPTION : Nat
deriving Repr, DecidableEq

/-! ## Error taxonomy

`HTTPException` status codes used by the handlers: 400 (`badRequest`),
404 (`notFound`), 401 (`unauthorized`), 403 (`forbidden`); pydantic schema
failures surface as 422 (`validation`). -/

inductive ApiError where
  | badRequest (detail : String)
  | notFound (detail : String)
  | unauthorized (detail : String)
  | forbidden (detail : String)
  | validation (detail : String)
deriving Repr, DecidableEq

/-- `true` exactly on the authentication/authorization error kinds
(401 and 403). -/
def ApiError.isAuthError : ApiError → Bool
  | .unauthorized _ => true
  | .forbidden _ => true
  | _ => false

/-- `true` when a handler outcome is not a 401/403 rejection. -/
def noAuthError {α : Type} : Except ApiError α → Bool
  | .error e => !e.isAuthError
  | .ok _ => true

/-- Lift a `ValueError`-raising validator (`Except String`) into the 422
error channel of a pydantic schema. -/
def asValidation {α : Type} : Except String α → Except ApiError α
  | .ok a => .ok a
  | .error m => .error (.validation m)

/-! ## License plate validator (`car_api/validators/cars.py`, `validate_car_plate`) -/

/-- The old Brazilian plate regex `^[A-Z]{3}[0-9]{4}$`. -/
def matchesOldPlate (s : String) : Bool :=
  match s.data with
  | [a, b, c, d, e, f, g] =>
      isUpperAlphaChar a && isUpperAlphaChar b && isUpperAlphaChar c &&
      isDigitChar d && isDigitChar e && isDigitChar f && isDigitChar g
  | _ => false

/-- The Mercosul plate regex `^[A-Z]{3}[0-9][A-Z][0-9]{2}$`. -/
def matchesMercosulPlate (s : String) : Bool :=
  match s.data with
  | [a, b, c, d, e, f, g] =>
      isUpperAlphaChar a && isUpperAlphaChar b && isUpperAlphaChar c &&
      isDigitChar d && isUpperAlphaChar e && isDigitChar f && isDigitChar g
  | _ => false

/-- The normalization applied by `validate_car_plate` before matching:
`value.replace("-", "").upper().strip()`. -/
def plateNormalize (value : String) : String :=
  pyStrip (pyUpper (pyReplaceDash value))

/-- `validate_car_plate`: normalize, accept iff the result matches the old or
the Mercosul pattern, returning `value.upper()` of the (already normalized)
value. -/
def validate_car_plate (value : String) : Except String String :=
  let v := plateNormalize value
  if matchesOldPlate v || matchesMercosulPlate v then .ok (pyUpper v)
  else .error "Placa inválida. Aceitos: padrão antigo (AAA0000) ou Mercosul (AAA0A00)."

/-! ### Fixed-point lemmas for the plate normalization -/

/-- A character allowed in a normalized plate: `[A-Z0-9]`. -/
def plateChar (c : Char) : Bool := isUpperAlphaChar c || isDigitChar c

theorem plateChar_facts {c : Char} (h : plateChar c = true) :
    (c != '-') = true ∧ pyUpperChar c = c ∧ isPySpaceChar c = false := by
  simp only [plateChar, isUpperAlphaChar, isDigitChar, Bool.or_eq_true, Bool.and_eq_true,
    decide_eq_true_eq] at h
  refine ⟨?_, ?_, ?_⟩
  · simp only [bne_iff_ne, ne_eq]
    intro hc
    subst hc
    exact absurd h (by decide)
  · simp only [pyUpperChar, ite_eq_right_iff]
    intro hc
    omega
  · simp only [isPySpaceChar, Bool.or_eq_false_iff, beq_eq_false_iff_ne, ne_eq]
    omega

theorem dropWhile_eq_self_of_all {α : Type} {p : α → Bool} {l : List α}
    (h : ∀ x ∈ l, p x = false) : l.dropWhile p = l := by
  cases l with
  | nil => rfl
  | cons x xs => simp [List.dropWhile_cons, h x (by simp)]

theorem map_eq_self_of_all {α : Type} {f : α → α} {l : List α}
    (h : ∀ x ∈ l, f x = x) : l.map f = l := by
  induction l with
  | nil => rfl
  | cons x xs ih =>
      simp only [List.map_cons, h x (by simp), List.cons.injEq, true_and]
      exact ih (fun y hy => h y (by simp [hy]))

theorem filter_eq_self_of_all {α : Type} {p : α → Bool} {l : List α}
    (h : ∀ x ∈ l, p x = true) : l.filter p = l := by
  induction l with
  | nil => rfl
  | cons x xs ih =>
      simp only [List.filter_cons, h x (by simp), ite_true, List.cons.injEq, true_and]
      exact ih (fun y hy => h y (by simp [hy]))

/-- A string of plate characters is untouched by the whole normalization
pipeline (`replace("-","")`, `upper()`, `strip()`). -/
theorem plateNormalize_fixed_of_all {v : String}
    (hall : ∀ x ∈ v.data, plateChar x = true) :
    plateNormalize v = v ∧ pyUpper v = v := by
  have hdash : pyReplaceDash v = v := by
    apply String.ext
    exact filter_eq_self_of_all (fun x hx => (plateChar_facts (hall x hx)).1)
  have hupper : pyUpper v = v := by
    apply String.ext
    exact map_eq_self_of_all (fun x hx => (plateChar_facts (hall x hx)).2.1)
  have hstrip : pyStrip v = v := by
    apply String.ext
    show ((v.data.dropWhile isPySpaceChar).reverse.dropWhile isPySpaceChar).reverse = v.data
    rw [dropWhile_eq_self_of_all (fun x hx => (plateChar_facts (hall x hx)).2.2)]
    rw [dropWhile_eq_self_of_all
      (fun x hx => (plateChar_facts (hall x (List.mem_reverse.mp hx))).2.2)]
    exact List.reverse_reverse _
  refine ⟨?_, hupper⟩
  unfold plateNormalize
  rw [hdash, hupper, hstrip]

theorem matches_plate_all {v : String}
    (h : (matchesOldPlate v || matchesMercosulPlate v) = true) :
    ∀ x ∈ v.data, plateChar x = true := by
  have h' : matchesOldPlate v = true ∨ matchesMercosulPlate v = true := by simpa using h
  rcases h' with h | h
  · unfold matchesOldPlate at h
    split at h
    case _ a b c d e f g heq =>
      simp only [Bool.and_eq_true] at h
      intro x hx
      rw [heq] at hx
      simp only [List.mem_cons, List.not_mem_nil, or_false] at hx
      simp only [plateChar, Bool.or_eq_true]
      rcases hx with rfl | rfl | rfl | rfl | rfl | rfl | rfl <;> tauto
    case _ => exact absurd h (by simp)
  · unfold matchesMercosulPlate at h
    split at h
    case _ a b c d e f g heq =>
      simp only [Bool.and_eq_true] at h
      intro x hx
      rw [heq] at hx
      simp only [List.mem_cons, List.not_mem_nil, or_false] at hx
      simp only [plateChar, Bool.or_eq_true]
      rcases hx with rfl | rfl | rfl | rfl | rfl | rfl | rfl <;> tauto
    case _ => exact absurd h (by simp)

/-- A plate accepted by the validator is a fixed point of the normalization. -/
theorem plateNormalize_fixed {v : String}
    (h : (matchesOldPlate v || matchesMercosulPlate v) = true) :
    plateNormalize v = v ∧ pyUpper v = v :=
  plateNormalize_fixed_of_all (matches_plate_all h)

/-- C10 (amended): for every plate string the validator accepts, the returned
value is the input with hyphens removed, letters uppercased AND surrounding
whitespace trimmed (the source also calls `.strip()`); this normalization is
idempotent, and re-validating the normalized form succeeds and returns it
unchanged. -/
theorem c10_plate_normalization (s r : String) (h : validate_car_plate s = .ok r) :
    r = plateNormalize s ∧
    plateNormalize (plateNormalize s) = plateNormalize s ∧
    validate_car_plate r = .ok r := by
  unfold validate_car_plate at h ⊢
  by_cases hm : (matchesOldPlate (plateNormalize s) ||
      matchesMercosulPlate (plateNormalize s)) = true
  · have hfix := plateNormalize_fixed hm
    rw [if_pos hm] at h
    have hr : r = plateNormalize s := by
      have := Except.ok.inj h
      rw [← this, hfix.2]
    subst hr
    refine ⟨rfl, hfix.1, ?_⟩
    rw [hfix.1, if_pos hm, hfix.2]
  · rw [if_neg hm] at h
    exact absurd h (by simp)

/-- Witness for `c10_plate_normalization` at the concrete input
`"abc-1234"`. -/
theorem c10_plate_normalization_witness :
    "ABC1234" = plateNormalize "abc-1234" ∧
    plateNormalize (plateNormalize "abc-1234") = plateNormalize "abc-1234" ∧
    validate_car_plate "ABC1234" = .ok "ABC1234" :=
  c10_plate_normalization "abc-1234" "ABC1234" rfl

/-- C10 counterexample: the input `" ABC1234"` (leading space) is accepted
and the validator returns `"ABC1234"`, which is NOT the input with hyphens
stripped and letters uppercased — the validator additionally trims
whitespace. -/
theorem c10_counterexample :
    validate_car_plate " ABC1234" = .ok "ABC1234" ∧
    pyUpper (pyReplaceDash " ABC1234") ≠ "ABC1234" := by
  refine ⟨rfl, ?_⟩
  decide

/-! ## Brand / car field validators (`car_api/validators/cars.py`)

The f-string interpolation of configured numbers into some error messages is
elided (the message text is kept without the interpolated number); no claim
depends on those messages. -/

/-- The regex class `[A-Za-z0-9\s\-]` used for brand names and car models. -/
def isNameChar (c : Char) : Bool :=
  isAlphaChar c || isDigitChar c || isPySpaceChar c || c == '-'

/-- `validate_brand_name`: trim, 2–50 chars, letters/digits/spaces/hyphens. -/
def validate_brand_name (value : String) : Except String String :=
  let v := pyStrip value
  if v = "" then .error "O nome da marca não pode estar vazio."
  else if v.length < 2 then .error "O nome da marca deve ter pelo menos 2 caracteres."
  else if v.length > 50 then .error "O nome da marca deve ter no máximo 50 caracteres."
  else if !(v.data.all isNameChar) then
    .error "O nome da marca deve conter apenas letras, números, espaços e hífens."
  else .ok (pyStrip v)

/-- `validate_brand_description`: length cap `MAX_BRAND_DESCRIPTION` (checked
before trimming), returns the trimmed value. -/
def validate_brand_description (cfg : Config) (value : String) : Except String String :=
  if value.length > cfg.MAX_BRAND_DESCRIPTION then
    .error "A descrição deve ter no máximo MAX_BRAND_DESCRIPTION caracteres."
  else .ok (pyStrip value)

/-- `validate_car_model`: trim, 2–50 chars, letters/digits/spaces/hyphens. -/
def validate_car_model (value : String) : Except String String :=
  let v := pyStrip value
  if v = "" then .error "O modelo do carro não pode estar vazio."
  else if v.length < 2 then .error "O modelo deve ter pelo menos 2 caracteres."
  else if v.length > 50 then .error "O modelo deve ter no máximo 50 caracteres."
  else if !(v.data.all isNameChar) then
    .error "O modelo deve conter apenas letras, números, espaços e hífens."
  else .ok (pyStrip v)

/-- `validate_car_factory_year`: at least `MIN_FACTORY_YEAR`, at most
`current_year + MAX_FUTURE_YEAR`. -/
def validate_car_factory_year (cfg : Config) (currentYear : Int) (value : Int) :
    Except String Int :=
  if value < cfg.MIN_FACTORY_YEAR then
    .error "O ano de fabricação deve ser a partir de MIN_FACTORY_YEAR."
  else if value > currentYear + cfg.MAX_FUTURE_YEAR then
    .error "O ano de fabricação não pode ultrapassar o limite."
  else .ok value

/-- `validate_car_model_year`: not before `factory_year`, at most
`current_year + MAX_FUTURE_YEAR`. -/
def validate_car_model_year (cfg : Config) (currentYear : Int)
    (value factory_year : Int) : Except String Int :=
  if value < factory_year then
    .error "O ano do modelo não pode ser anterior ao ano de fabricação."
  else if value > currentYear + cfg.MAX_FUTURE_YEAR then
    .error "O ano do modelo não pode ultrapassar o limite."
  else .ok value

/-- `validate_car_price` (`Decimal` modelled as `Int`; no claim involves
fractional prices). -/
def validate_car_price (cfg : Config) (value : Int) : Except String Int :=
  if value < 0 then .error "O preço não pode ser negativo."
  else if value > cfg.MAX_PRICE then .error "O preço deve ser no máximo MAX_PRICE."
  else .ok value

/-- `validate_car_mileage`. -/
def validate_car_mileage (cfg : Config) (value : Int) : Except String Int :=
  if value < 0 then .error "A quilometragem não pode ser negativa."
  else if value > cfg.MAX_MILEAGE then
    .error "A quilometragem deve ser no máximo MAX_MILEAGE."
  else .ok value

/-! ## User field validators (`car_api/validators/users.py`)

Python's unicode-aware `str.isdigit` / `str.isalpha` and the regex classes
are modelled on their ASCII (plus, for full names, Latin-1 accented) fragment;
no claim depends on characters outside that fragment. -/

/-- `validate_password`: trim, 6–15 chars, at least one digit and one
letter. -/
def validate_password (value : String) : Except String String :=
  let v := pyStrip value
  if v = "" then .error "A senha não pode estar vazia."
  else if v.length < 6 then .error "A senha deve ter pelo menos 6 caracteres."
  else if v.length > 15 then .error "A senha deve ter no máximo 15 caracteres."
  else if !(v.data.any isDigitChar) then .error "A senha deve conter pelo menos um número."
  else if !(v.data.any isAlphaChar) then .error "A senha deve conter pelo menos uma letra."
  else .ok v

/-- The regex class `[A-Za-zÀ-ÖØ-öø-ÿ\s]` used for full names. -/
def isFullNameChar (c : Char) : Bool :=
  isAlphaChar c || isPySpaceChar c ||
  (192 ≤ c.toNat && c.toNat ≤ 214) || (216 ≤ c.toNat && c.toNat ≤ 246) ||
  (248 ≤ c.toNat && c.toNat ≤ 255)

/-- `validate_full_name`: trim, 3–50 chars, letters/spaces/accents. -/
def validate_full_name (value : String) : Except String String :=
  let v := pyStrip value
  if v = "" then .error "O nome completo não pode estar vazio."
  else if v.length < 3 then .error "O nome completo deve ter pelo menos 3 caracteres."
  else if v.length > 50 then .error "O nome completo deve ter no máximo 50 caracteres."
  else if !(v.data.all isFullNameChar) then
    .error "O nome completo deve conter apenas letras e espaços."
  else .ok v

/-- The reserved usernames. -/
def reservedUsernames : List String := ["admin", "root", "superuser", "system", "null"]

/-- The regex `^[A-Za-z][A-Za-z0-9_]+$`: a letter followed by one or more
letters, digits or underscores. -/
def matchesUsername (s : String) : Bool :=
  match s.data with
  | [] => false
  | c :: rest =>
      isAlphaChar c && !rest.isEmpty &&
      rest.all (fun d => isAlphaChar d || isDigitChar d || d == '_')

/-- `validate_username`: trim, 3–20 chars, username regex, not reserved
(case-insensitively). -/
def validate_username (value : String) : Except String String :=
  let v := pyStrip value
  if v = "" then .error "O username não pode estar vazio."
  else if v.length < 3 then .error "O username deve ter pelo menos 3 caracteres."
  else if v.length > 20 then .error "O username deve ter no máximo 20 caracteres."
  else if !(matchesUsername v) then
    .error "O username deve começar com uma letra e conter apenas letras, números ou underscores."
  else if reservedUsernames.contains (pyLower v) then
    .error "Este username é reservado e não pode ser utilizado."
  else .ok v

/-- The disposable email domains rejected by `validate_email`. -/
def disposableDomains : List String :=
  ["mailinator.com", "yopmail.com", "tempmail.com", "10minutemail.com", "guerrillamail.com"]

/-- `validate_email`: lowercase + trim, reject disposable domains, cap at 120
chars.  NOTE: in the source this validator is attached only to the login
schema (`car_api/schemas/auth.py`); the registration schema `UserCreate`
does NOT apply it, so registration emails are never lowercased. -/
def validate_email (value : String) : Except String String :=
  let email := pyStrip (pyLower value)
  -- `email.split('@')[-1]`: everything after the last `@` (the whole string
  -- when there is none)
  let domain : String := ⟨(email.data.reverse.takeWhile (fun c => c != '@')).reverse⟩
  if disposableDomains.contains domain then
    .error "Emails de domínio descartável não são permitidos."
  else if email.length > 120 then .error "O email deve ter no máximo 120 caracteres."
  else .ok email

/-! ## Data model (`car_api/models/users.py`, `car_api/models/cars.py`)

Timestamps (`created_at` / `updated_at`) are server-assigned and play no role
in any claim; they are omitted.  The car enum columns are modelled as their
string values with explicit membership lists (the closed sets from
`models/cars.py`). -/

inductive UserRole where
  | user
  | admin
deriving Repr, DecidableEq

/-- A row of the `users` table.  `password` stores the hash. -/
structure UserRec where
  id : Nat
  username : String
  full_name : String
  email : String
  password : String
  role : UserRole
  is_active : Bool
deriving Repr, DecidableEq

/-- A row of the `brands` table. -/
structure BrandRec where
  id : Nat
  name : String
  description : Option String
  is_active : Bool
deriving Repr, DecidableEq

/-- A row of the `cars` table. -/
structure CarRec where
  id : Nat
  car_type : String
  model : String
  factory_year : Int
  model_year : Int
  color : String
  plate : String
  fuel_type : String
  transmission : String
  condition : String
  status : String
  mileage : Int
  price : Int
  description : Option String
  brand_id : Nat
  owner_id : Nat
deriving Repr, DecidableEq

def carTypeValues : List String :=
  ["hatch", "sedan", "suv", "hatchback", "coupe", "convertible", "wagon", "van",
   "pickup", "other"]

def carStatusValues : List String :=
  ["available", "unavailable", "sold", "maintenance", "reserved"]

def carConditionValues : List String := ["new", "used", "certified pre-owned"]

def carColorValues : List String :=
  ["black", "white", "silver", "gray", "red", "blue", "brown", "green", "yellow",
   "orange", "purple", "other"]

def transmissionTypeValues : List String := ["automatic", "manual", "semi-automatic", "cvt"]

def fuelTypeValues : List String :=
  ["gasoline", "ethanol", "flex", "diesel", "electric", "hybrid", "other"]

/-- The relational store. -/
structure DB where
  users : List UserRec
  brands : List BrandRec
  cars : List CarRec
deriving Repr, DecidableEq

namespace DB

/-- `db.get(User, user_id)` / `select(User).where(User.id == uid)`. -/
def userById (db : DB) (uid : Nat) : Option UserRec :=
  db.users.find? (fun u => u.id == uid)

/-- `select(exists().where(User.username == name))`. -/
def usernameExists (db : DB) (name : String) : Bool :=
  db.users.any (fun u => u.username == name)

/-- `select(exists().where(User.email == email))`. -/
def emailExists (db : DB) (email : String) : Bool :=
  db.users.any (fun u => u.email == email)

/-- `select(Brand).where(Brand.id == brand_id)`. -/
def brandById (db : DB) (bid : Nat) : Option BrandRec :=
  db.brands.find? (fun b => b.id == bid)

/-- `select(exists().where(Brand.id == brand_id))`. -/
def brandExists (db : DB) (bid : Nat) : Bool :=
  db.brands.any (fun b => b.id == bid)

/-- `select(exists().where(User.id == uid))`. -/
def userExists (db : DB) (uid : Nat) : Bool :=
  db.users.any (fun u => u.id == uid)

/-- `select(Car).where(Car.id == car_id)`. -/
def carById (db : DB) (cid : Nat) : Option CarRec :=
  db.cars.find? (fun c => c.id == cid)

/-- `select(exists().where(Car.plate == plate))`. -/
def plateExists (db : DB) (plate : String) : Bool :=
  db.cars.any (fun c => c.plate == plate)

/-- `select(func.count()).where(Car.plate == plate)`. -/
def countCarsWithPlate (db : DB) (plate : String) : Nat :=
  (db.cars.filter (fun c => c.plate == plate)).length

/-- `select(func.count()).where(Car.brand_id == bid)` — note: counts CARS
carrying the brand id, not brands. -/
def countCarsWithBrandId (db : DB) (bid : Nat) : Nat :=
  (db.cars.filter (fun c => c.brand_id == bid)).length

/-- `select(func.count()).where(Car.owner_id == uid)` — note: counts CARS
carrying the owner id, not users. -/
def countCarsWithOwnerId (db : DB) (uid : Nat) : Nat :=
  (db.cars.filter (fun c => c.owner_id == uid)).length

/-- `select(exists().where(Brand.id == bid).where(Brand.cars.any()))`: a brand
row with this id exists and at least one car references it. -/
def brandHasCars (db : DB) (bid : Nat) : Bool :=
  (db.brandById bid).isSome && db.cars.any (fun c => c.brand_id == bid)

/-- Auto-increment id for a new user row. -/
def freshUserId (db : DB) : Nat :=
  (db.users.map (fun u => u.id)).foldr max 0 + 1

/-- Auto-increment id for a new brand row. -/
def freshBrandId (db : DB) : Nat :=
  (db.brands.map (fun b => b.id)).foldr max 0 + 1

/-- Auto-increment id for a new car row. -/
def freshCarId (db : DB) : Nat :=
  (db.cars.map (fun c => c.id)).foldr max 0 + 1

end DB

/-! ## Truthiness helpers

Several source guards are Python truthiness tests (`if value:` /
`validate(value) if value else value`): an `Optional` field is falsy when it
is `None`, an empty string, or the number `0`. -/

def optStrTruthy : Option String → Bool
  | some s => s != ""
  | none => false

def optIntTruthy : Option Int → Bool
  | some v => v != 0
  | none => false

def optNatTruthy : Option Nat → Bool
  | some v => v != 0
  | none => false

/-- The `validate(value) if value else value` pattern on an optional string
field. -/
def validateOptTruthy (f : String → Except String String) :
    Option String → Except String (Option String)
  | none => .ok none
  | some s => if s != "" then (f s).map some else .ok (some s)

/-- The `validate(value) if value else value` pattern on an optional int
field. -/
def validateOptIntTruthy (f : Int → Except String Int) :
    Option Int → Except String (Option Int)
  | none => .ok none
  | some v => if v != 0 then (f v).map some else .ok (some v)

/-- Validation of an optional enum-typed field: pydantic checks membership
when the field is present. -/
def optEnumOk (values : List String) : Option String → Bool
  | none => true
  | some s => values.contains s

/-- Pydantic `EmailStr`, modelled as requiring exactly one `@` separating two
nonempty parts and passing the string through unchanged.  The real
email-validator is stricter and lowercases only the DOMAIN part; it never
lowercases the local part, which the passthrough model preserves — the
claims settled here depend only on that. -/
def emailStrOk (s : String) : Bool :=
  s.data.count '@' == 1 && !(s.data.head? == some '@') && !(s.data.getLast? == some '@')

/-! ## Pydantic schemas (`car_api/schemas/users.py`, `brands.py`, `cars.py`) -/

/-- Body of `POST /users/` (`UserCreate`, extending `UserBase`). -/
structure UserCreate where
  email : String
  full_name : String
  username : String
  is_active : Option Bool := some true
  password : String
deriving Repr, DecidableEq

/-- `UserCreate` validation: `EmailStr` on email, `validate_full_name`,
`validate_username`, `validate_password`.  (`UserCreate` attaches NO custom
email validator; `validate_email` is not applied at registration.) -/
def UserCreate.validate (raw : UserCreate) : Except ApiError UserCreate :=
  if !(emailStrOk raw.email) then .error (.validation "value is not a valid email address")
  else
    match validate_full_name raw.full_name with
    | .error m => .error (.validation m)
    | .ok fn =>
      match validate_username raw.username with
      | .error m => .error (.validation m)
      | .ok un =>
        match validate_password raw.password with
        | .error m => .error (.validation m)
        | .ok pw => .ok { raw with full_name := fn, username := un, password := pw }

/-- Body of `PUT /users/{user_id}` (`UserUpdate`), all fields optional. -/
structure UserUpdate where
  username : Option String := none
  full_name : Option String := none
  email : Option String := none
  password : Option String := none
  is_active : Option Bool := none
deriving Repr, DecidableEq

/-- `UserUpdate` validation: truthiness-guarded username / full_name /
password validators, `EmailStr` on email when present. -/
def UserUpdate.validate (raw : UserUpdate) : Except ApiError UserUpdate :=
  match validateOptTruthy validate_username raw.username with
  | .error m => .error (.validation m)
  | .ok un =>
    match validateOptTruthy validate_full_name raw.full_name with
    | .error m => .error (.validation m)
    | .ok fn =>
      match (match raw.email with
             | some e =>
                 if emailStrOk e then Except.ok (some e)
                 else Except.error "value is not a valid email address"
             | none => Except.ok none) with
      | .error m => .error (.validation m)
      | .ok em =>
        match validateOptTruthy validate_password raw.password with
        | .error m => .error (.validation m)
        | .ok pw =>
            .ok { raw with username := un, full_name := fn, email := em, password := pw }

/-- Modelled from the spec: `BrandSchema`, the body of the public
`POST /brands/`, is imported by `routers/brands.py` from
`car_api/schemas/brands.py` but is missing from that file.  Per the spec a
brand payload carries a validated name, an optional description bounded by
`MAX_BRAND_DESCRIPTION`, and `is_active` (default true); the handler reads
`.name`, `.description` and `.is_active`. -/
structure BrandSchema where
  name : String
  description : Option String := none
  is_active : Bool := true
deriving Repr, DecidableEq

/-- Modelled from the spec: validation of `BrandSchema` applies the brand
name rule and, when a description is present, the description length rule
(mirroring the guards of the sibling `BrandCreateSchema`). -/
def BrandSchema.validate (cfg : Config) (raw : BrandSchema) : Except ApiError BrandSchema :=
  match validate_brand_name raw.name with
  | .error m => .error (.validation m)
  | .ok nm =>
    match validateOptTruthy (validate_brand_description cfg) raw.description with
    | .error m => .error (.validation m)
    | .ok ds => .ok { raw with name := nm, description := ds }

/-- Body of the admin `POST /admin/brands/` (`BrandCreateSchema`). -/
structure BrandCreateSchema where
  name : String
  description : Option String := none
deriving Repr, DecidableEq

def BrandCreateSchema.validate (cfg : Config) (raw : BrandCreateSchema) :
    Except ApiError BrandCreateSchema :=
  match validate_brand_name raw.name with
  | .error m => .error (.validation m)
  | .ok nm =>
    match validateOptTruthy (validate_brand_description cfg) raw.description with
    | .error m => .error (.validation m)
    | .ok ds => .ok { raw with name := nm, description := ds }

/-- Body of `PUT /brands/{id}` and `PUT /admin/brands/{id}`
(`BrandUpdateSchema`). -/
structure BrandUpdateSchema where
  name : Option String := none
  description : Option String := none
deriving Repr, DecidableEq

def BrandUpdateSchema.validate (cfg : Config) (raw : BrandUpdateSchema) :
    Except ApiError BrandUpdateSchema :=
  match validateOptTruthy validate_brand_name raw.name with
  | .error m => .error (.validation m)
  | .ok nm =>
    match validateOptTruthy (validate_brand_description cfg) raw.description with
    | .error m => .error (.validation m)
    | .ok ds => .ok { raw with name := nm, description := ds }

/-- Body of `POST /cars/` (`CarSchema`). -/
structure CarSchema where
  car_type : String
  model : String
  factory_year : Int
  model_year : Int
  color : String
  fuel_type : String
  transmission : String
  condition : String
  status : String := "available"
  mileage : Int
  plate : String
  price : Int
  description : Option String := none
  brand_id : Nat
  owner_id : Nat
deriving Repr, DecidableEq

/-- `CarSchema` validation: enum membership per enum-typed field, the field
validators for model / factory_year / mileage / plate / price, and the
`model_validator` cross-field year check last (pydantic runs it only after
all field validation succeeded). -/
def CarSchema.validate (cfg : Config) (currentYear : Int) (raw : CarSchema) :
    Except ApiError CarSchema :=
  if !(carTypeValues.contains raw.car_type) then
    .error (.validation "Input should be a valid CarType")
  else
    match validate_car_model raw.model with
    | .error m => .error (.validation m)
    | .ok md =>
      match validate_car_factory_year cfg currentYear raw.factory_year with
      | .error m => .error (.validation m)
      | .ok fy =>
        if !(carColorValues.contains raw.color) then
          .error (.validation "Input should be a valid CarColor")
        else if !(fuelTypeValues.contains raw.fuel_type) then
          .error (.validation "Input should be a valid FuelType")
        else if !(transmissionTypeValues.contains raw.transmission) then
          .error (.validation "Input should be a valid TransmissionType")
        else if !(carConditionValues.contains raw.condition) then
          .error (.validation "Input should be a valid CarCondition")
        else if !(carStatusValues.contains raw.status) then
          .error (.validation "Input should be a valid CarStatus")
        else
          match validate_car_mileage cfg raw.mileage with
          | .error m => .error (.validation m)
          | .ok mi =>
            match validate_car_plate raw.plate with
            | .error m => .error (.validation m)
            | .ok pl =>
              match validate_car_price cfg raw.price with
              | .error m => .error (.validation m)
              | .ok pr =>
                match validate_car_model_year cfg currentYear raw.model_year fy with
                | .error m => .error (.validation m)
                | .ok _ =>
                    .ok { raw with model := md, factory_year := fy, mileage := mi,
                                   plate := pl, price := pr }

/-- Body of `PUT /cars/{car_id}` (`CarUpdateSchema`), all fields optional. -/
structure CarUpdateSchema where
  car_type : Option String := none
  model : Option String := none
  factory_year : Option Int := none
  model_year : Option Int := none
  color : Option String := none
  fuel_type : Option String := none
  transmission : Option String := none
  condition : Option String := none
  status : Option String := none
  mileage : Option Int := none
  plate : Option String := none
  price : Option Int := none
  description : Option String := none
  brand_id : Option Nat := none
  owner_id : Option Nat := none
deriving Repr, DecidableEq

/-- `CarUpdateSchema` validation: truthiness-guarded field validators, enum
membership when present, and the cross-field year check only when BOTH year
fields are (truthily) present. -/
def CarUpdateSchema.validate (cfg : Config) (currentYear : Int) (raw : CarUpdateSchema) :
    Except ApiError CarUpdateSchema :=
  if !(optEnumOk carTypeValues raw.car_type) then
    .error (.validation "Input should be a valid CarType")
  else
    match validateOptTruthy validate_car_model raw.model with
    | .error m => .error (.validation m)
    | .ok md =>
      match validateOptIntTruthy (validate_car_factory_year cfg currentYear) raw.factory_year with
      | .error m => .error (.validation m)
      | .ok fy =>
        if !(optEnumOk carColorValues raw.color) then
          .error (.validation "Input should be a valid CarColor")
        else if !(optEnumOk fuelTypeValues raw.fuel_type) then
          .error (.validation "Input should be a valid FuelType")
        else if !(optEnumOk transmissionTypeValues raw.transmission) then
          .error (.validation "Input should be a valid TransmissionType")
        else if !(optEnumOk carConditionValues raw.condition) then
          .error (.validation "Input should be a valid CarCondition")
        else if !(optEnumOk carStatusValues raw.status) then
          .error (.validation "Input should be a valid CarStatus")
        else
          match validateOptIntTruthy (validate_car_mileage cfg) raw.mileage with
          | .error m => .error (.validation m)
          | .ok mi =>
            match validateOptTruthy validate_car_plate raw.plate with
            | .error m => .error (.validation m)
            | .ok pl =>
              match validateOptIntTruthy (validate_car_price cfg) raw.price with
              | .error m => .error (.validation m)
              | .ok pr =>
                match (match raw.model_year, raw.factory_year with
                       | some my, some fyv =>
                           if my != 0 && fyv != 0 then
                             match validate_car_model_year cfg currentYear my fyv with
                             | .error m => Except.error m
                             | .ok _ => Except.ok ()
                           else Except.ok ()
                       | _, _ => Except.ok ()) with
                | .error m => .error (.validation m)
                | .ok _ =>
                    .ok { raw with model := md, factory_year := fy, mileage := mi,
                                   plate := pl, price := pr }

/-- Modelled from the spec: `AdminCarCreateSchema`, the body of
`POST /admin/cars/`, is imported by `routers/admin/cars.py` from
`car_api/schemas/cars.py` but is missing from that file.  Per the spec the
admin path carries the same car fields and validation rules as the
self-service create schema, with `owner_id` naming the arbitrary owner the
car is created for. -/
def AdminCarCreateSchema : Type := CarSchema

/-- Modelled from the spec: admin create payload validation — the same rules
as `CarSchema.validate`. -/
def AdminCarCreateSchema.validate (cfg : Config) (currentYear : Int)
    (raw : AdminCarCreateSchema) : Except ApiError AdminCarCreateSchema :=
  CarSchema.validate cfg currentYear raw

/-! ## Security (`car_api/core/security.py`) -/

/-- The credential attached to an inbound request.  `.missing`: no
`Authorization` header (rejected by the `HTTPBearer` dependency before the
handler); `.invalid`: a token failing `verify_token` (bad signature, expired,
wrong `type` claim) or whose subject is not an integer; `.bearer uid`: a
valid access token whose subject is `uid`. -/
inductive Credential where
  | missing
  | invalid
  | bearer (user_id : Nat)
deriving Repr, DecidableEq

/-- `get_current_user`: decode the token, parse the subject, look up the
user; unknown or inactive users are rejected.  Every failure is 401. -/
def get_current_user (cred : Credential) (db : DB) : Except ApiError UserRec :=
  match cred with
  | .missing => .error (.unauthorized "Not authenticated")
  | .invalid => .error (.unauthorized "Could not validate credentials")
  | .bearer uid =>
    match db.userById uid with
    | none => .error (.unauthorized "Invalid authentication credentials")
    | some u =>
        if u.is_active then .ok u
        else .error (.unauthorized "Invalid authentication credentials")

/-- `require_admin`: the current user must have the admin role, else 403. -/
def require_admin (cred : Credential) (db : DB) : Except ApiError UserRec :=
  match get_current_user cred db with
  | .error e => .error e
  | .ok u =>
      if u.role ≠ UserRole.admin then .error (.forbidden "Acesso restrito a administradores.")
      else .ok u

/-- `verify_car_ownership`: 403 unless the authenticated user's id equals the
car's owner id.  NOTE: the source has no admin bypass here. -/
def verify_car_ownership (current_user : UserRec) (car_owner_id : Nat) :
    Except ApiError Unit :=
  if current_user.id ≠ car_owner_id then
    .error (.forbidden "Not enough permissions to access this car")
  else .ok ()

/-! ## Users router (`car_api/routers/users.py`)

NOTE: none of the handlers in this router declares an authentication
dependency — the routes are `POST /users/`, `GET /users/{user_id}`,
`GET /users/`, `PUT /users/{user_id}`, `DELETE /users/{user_id}`, all public.
There is no `/users/me` route.  The password hasher is the external
collaborator `get_password_hash`, passed in as `hashFn`. -/

/-- `POST /users/` (`create_user`): username uniqueness first, then email
uniqueness, then insert with `role=user`, `is_active=True`. -/
def create_user (hashFn : String → String) (db : DB) (raw : UserCreate) :
    Except ApiError (UserRec × DB) :=
  match UserCreate.validate raw with
  | .error e => .error e
  | .ok user =>
    if db.usernameExists user.username then
      .error (.badRequest
        "Usename não disponível. Já existe um usuário cadastrado com este username.")
    else if db.emailExists user.email then
      .error (.badRequest "Email já existe. Já existe um usuário cadastrado com este email.")
    else
      let nu : UserRec :=
        { id := db.freshUserId, username := user.username, full_name := user.full_name,
          email := user.email, password := hashFn user.password, role := .user,
          is_active := true }
      .ok (nu, { db with users := db.users ++ [nu] })

/-- `PUT /users/{user_id}` (`update_user`) — NO authentication: any caller
may update any user by id.  Username/email uniqueness checks exclude the
current row and run only when the field is truthy and actually changes;
the password is hashed separately; the remaining set fields are merged. -/
def update_user (hashFn : String → String) (db : DB) (user_id : Nat) (raw : UserUpdate) :
    Except ApiError (UserRec × DB) :=
  match UserUpdate.validate raw with
  | .error e => .error e
  | .ok upd =>
    match db.userById user_id with
    | none => .error (.notFound "Usuário não encontrado.")
    | some db_user =>
      let usernameConflict :=
        match upd.username with
        | some un => un != "" && un != db_user.username &&
            db.users.any (fun u => u.username == un && u.id != user_id)
        | none => false
      if usernameConflict then .error (.badRequest "Username já está em uso.")
      else
        let emailConflict :=
          match upd.email with
          | some em => em != "" && em != db_user.email &&
              db.users.any (fun u => u.email == em && u.id != user_id)
          | none => false
        if emailConflict then .error (.badRequest "Email já está em uso.")
        else
          let afterPw :=
            match upd.password with
            | some pw => if pw != "" then { db_user with password := hashFn pw } else db_user
            | none => db_user
          let nu : UserRec :=
            { afterPw with
              username := upd.username.getD afterPw.username,
              full_name := upd.full_name.getD afterPw.full_name,
              email := upd.email.getD afterPw.email,
              is_active := upd.is_active.getD afterPw.is_active }
          .ok (nu, { db with users := db.users.map (fun u => if u.id == user_id then nu else u) })

/-- `DELETE /users/{user_id}` (`delete_user`) — NO authentication: any
caller may delete any user by id.  (`User.cars` declares no cascade.) -/
def delete_user (db : DB) (user_id : Nat) : Except ApiError DB :=
  match db.userById user_id with
  | none => .error (.notFound "Usuário não encontrado.")
  | some _ => .ok { db with users := db.users.filter (fun u => u.id != user_id) }

/-- Response of `GET /users/`. -/
structure UserListResult where
  users : List UserRec
  offset : Nat
  limit : Nat
  total : Nat
deriving Repr, DecidableEq

/-- `GET /users/` (`list_users`): optional search over username / full_name /
email, offset/limit pagination (limit clamped to [1,100] by the `Query`
declaration, modelled as the 422 guard), 404 when the PAGE is empty, and —
note — `total` is the length of the returned page. -/
def list_users (db : DB) (offset limit : Nat) (search : Option String) :
    Except ApiError UserListResult :=
  if limit < 1 || limit > 100 then .error (.validation "limit out of range")
  else
    let filtered :=
      if optStrTruthy search then
        let term := search.getD ""
        db.users.filter (fun u =>
          strILike u.username term || strILike u.full_name term || strILike u.email term)
      else db.users
    let page := (filtered.drop offset).take limit
    if page.isEmpty then .error (.notFound "Nenhum usuário encontrado.")
    else .ok { users := page, offset := offset, limit := limit, total := page.length }

/-! ## Brands router (`car_api/routers/brands.py`)

None of these handlers declares an authentication dependency: the request's
credential is passed through as an argument that the handler never inspects,
mirroring that the framework never examines it for these routes. -/

/-- `POST /brands/` (`create_brand`): duplicate-name check, then insert. -/
def create_brand (cfg : Config) (cred : Credential) (db : DB) (raw : BrandSchema) :
    Except ApiError (BrandRec × DB) :=
  match BrandSchema.validate cfg raw with
  | .error e => .error e
  | .ok bd =>
    if db.brands.any (fun b => b.name == bd.name) then
      .error (.badRequest "Já existe uma marca cadastrada com esse nome.")
    else
      let nb : BrandRec :=
        { id := db.freshBrandId, name := bd.name, description := bd.description,
          is_active := bd.is_active }
      .ok (nb, { db with brands := db.brands ++ [nb] })

/-- `PUT /brands/{brand_id}` (`update_brand`): 404 when missing; name
uniqueness (excluding the row) only when the name is truthy and changes;
merge the set fields. -/
def update_brand (cfg : Config) (cred : Credential) (db : DB) (brand_id : Nat)
    (raw : BrandUpdateSchema) : Except ApiError (BrandRec × DB) :=
  match BrandUpdateSchema.validate cfg raw with
  | .error e => .error e
  | .ok upd =>
    match db.brandById brand_id with
    | none => .error (.notFound "Marca não encontrada.")
    | some db_brand =>
      let nameConflict :=
        match upd.name with
        | some nm => nm != "" && nm != db_brand.name &&
            db.brands.any (fun b => b.name == nm && b.id != brand_id)
        | none => false
      if nameConflict then
        .error (.badRequest "Já existe outra marca cadastrada com esse nome.")
      else
        let nb : BrandRec :=
          { db_brand with
            name := upd.name.getD db_brand.name,
            description := match upd.description with
              | some d => some d
              | none => db_brand.description }
        .ok (nb, { db with brands := db.brands.map (fun b => if b.id == brand_id then nb else b) })

/-- `DELETE /brands/{brand_id}` (`delete_brand`): 400 when the brand exists
and has associated cars (checked FIRST), then 404 when missing, then delete.
The model-level `cascade="all, delete-orphan"` would also remove the brand's
cars, but the 400 guard makes that branch unreachable with cars present. -/
def delete_brand (cred : Credential) (db : DB) (brand_id : Nat) : Except ApiError DB :=
  if db.brandHasCars brand_id then
    .error (.badRequest "Não é possível deletar a marca porque existem carros associados a ela.")
  else
    match db.brandById brand_id with
    | none => .error (.notFound "Marca não encontrada.")
    | some _ =>
        .ok { db with
              brands := db.brands.filter (fun b => b.id != brand_id),
              cars := db.cars.filter (fun c => c.brand_id != brand_id) }

/-- Response of `GET /brands/`. -/
structure BrandListResult where
  brands : List BrandRec
  offset : Nat
  limit : Nat
  total : Nat
deriving Repr, DecidableEq

/-- `GET /brands/` (`list_brands`): optional name search and is_active
filter, offset/limit pagination, 404 when the PAGE is empty, and — note —
`total` is the length of the returned page. -/
def list_brands (db : DB) (offset limit : Nat) (search : Option String)
    (is_active : Option Bool) : Except ApiError BrandListResult :=
  if limit < 1 || limit > 100 then .error (.validation "limit out of range")
  else
    let f1 : List BrandRec :=
      if optStrTruthy search then
        let term := search.getD ""
        db.brands.filter (fun b => strILike b.name term)
      else db.brands
    let f2 : List BrandRec :=
      match is_active with
      | some v => f1.filter (fun b => b.is_active == v)
      | none => f1
    let page := (f2.drop offset).take limit
    if page.isEmpty then .error (.notFound "Nenhuma marca encontrada.")
    else .ok { brands := page, offset := offset, limit := limit, total := page.length }

/-! ## Cars router (`car_api/routers/cars.py`)

The interpolated car id in the 404 details (`f'Carro com ID {car_id} não
encontrado.'`) is elided from the message text. -/

/-- `POST /cars/` (`create_car`): authenticated; brand existence, owner
existence (on the PAYLOAD's `owner_id`!), plate uniqueness; the created car's
owner is the AUTHENTICATED CALLER (`owner_id=current_user.id`), not the
payload's owner_id. -/
def create_car (cfg : Config) (currentYear : Int) (db : DB) (cred : Credential)
    (raw : CarSchema) : Except ApiError (CarRec × DB) :=
  match get_current_user cred db with
  | .error e => .error e
  | .ok current_user =>
    match CarSchema.validate cfg currentYear raw with
    | .error e => .error e
    | .ok car =>
      if !(db.brandExists car.brand_id) then
        .error (.badRequest "A marca informada não existe.")
      else if !(db.userExists car.owner_id) then
        .error (.badRequest "O proprietário informado não existe.")
      else if db.plateExists car.plate then
        .error (.badRequest "Já existe um carro cadastrado com esta placa.")
      else
        let nc : CarRec :=
          { id := db.freshCarId, car_type := car.car_type, model := car.model,
            factory_year := car.factory_year, model_year := car.model_year,
            color := car.color, plate := car.plate, fuel_type := car.fuel_type,
            transmission := car.transmission, condition := car.condition,
            status := car.status, mileage := car.mileage, price := car.price,
            description := car.description, brand_id := car.brand_id,
            owner_id := current_user.id }
        .ok (nc, { db with cars := db.cars ++ [nc] })

/-- `PUT /cars/{car_id}` (`update_car`): authenticated; 404 when missing;
`verify_car_ownership` (403, no admin bypass); plate uniqueness when a truthy
plate changes; then the brand / owner "existence" checks — which COUNT ROWS
OF THE CARS TABLE (`Car.brand_id == value` / `Car.owner_id == value`), not
brands or users; then the field merge (set fields only); then the year
re-validation when either year field was set.  The source calls
`validate_car_model_year` directly in the handler, so its `ValueError`
escapes as the rejection; it is modelled in the validation error channel. -/
def update_car (cfg : Config) (currentYear : Int) (db : DB) (cred : Credential)
    (car_id : Nat) (raw : CarUpdateSchema) : Except ApiError (CarRec × DB) :=
  match get_current_user cred db with
  | .error e => .error e
  | .ok current_user =>
    match CarUpdateSchema.validate cfg currentYear raw with
    | .error e => .error e
    | .ok car_data =>
      match db.carById car_id with
      | none => .error (.notFound "Carro com ID car_id não encontrado.")
      | some db_car =>
        match verify_car_ownership current_user db_car.owner_id with
        | .error e => .error e
        | .ok _ =>
          let plateConflict :=
            match car_data.plate with
            | some pl => pl != "" && pl != db_car.plate && db.countCarsWithPlate pl != 0
            | none => false
          if plateConflict then
            .error (.badRequest "Já existe um carro cadastrado com esta placa.")
          else if optNatTruthy car_data.brand_id &&
              db.countCarsWithBrandId (car_data.brand_id.getD 0) == 0 then
            .error (.badRequest "A marca informada não existe.")
          else if optNatTruthy car_data.owner_id &&
              db.countCarsWithOwnerId (car_data.owner_id.getD 0) == 0 then
            .error (.badRequest "O proprietário informado não existe.")
          else
            let merged : CarRec :=
              { db_car with
                car_type := car_data.car_type.getD db_car.car_type,
                model := car_data.model.getD db_car.model,
                factory_year := car_data.factory_year.getD db_car.factory_year,
                model_year := car_data.model_year.getD db_car.model_year,
                color := car_data.color.getD db_car.color,
                fuel_type := car_data.fuel_type.getD db_car.fuel_type,
                transmission := car_data.transmission.getD db_car.transmission,
                condition := car_data.condition.getD db_car.condition,
                status := car_data.status.getD db_car.status,
                mileage := car_data.mileage.getD db_car.mileage,
                plate := car_data.plate.getD db_car.plate,
                price := car_data.price.getD db_car.price,
                description := match car_data.description with
                  | some d => some d
                  | none => db_car.description,
                brand_id := car_data.brand_id.getD db_car.brand_id,
                owner_id := car_data.owner_id.getD db_car.owner_id }
            match (if car_data.factory_year.isSome || car_data.model_year.isSome then
                     validate_car_model_year cfg currentYear merged.model_year
                       merged.factory_year
                   else .ok merged.model_year) with
            | .error m => .error (.validation m)
            | .ok _ =>
                .ok (merged,
                  { db with cars := db.cars.map (fun c => if c.id == car_id then merged else c) })

/-- `DELETE /cars/{car_id}` (`delete_car`): authenticated; 404 when missing;
`verify_car_ownership` (403, no admin bypass); then delete. -/
def delete_car (db : DB) (cred : Credential) (car_id : Nat) : Except ApiError DB :=
  match get_current_user cred db with
  | .error e => .error e
  | .ok current_user =>
    match db.carById car_id with
    | none => .error (.notFound "Carro com ID car_id não encontrado.")
    | some db_car =>
      match verify_car_ownership current_user db_car.owner_id with
      | .error e => .error e
      | .ok _ => .ok { db with cars := db.cars.filter (fun c => c.id != car_id) }

/-- Response of `GET /cars/` and `GET /admin/cars/`. -/
structure CarListResult where
  cars : List CarRec
  offset : Nat
  limit : Nat
  total : Nat
deriving Repr, DecidableEq

/-- `GET /cars/` (`list_cars`): public; truthiness-guarded filters; `total`
is computed over the FILTERED query BEFORE pagination; never 404s on an
empty page. -/
def list_cars (db : DB) (offset limit : Nat) (search : Option String)
    (car_type color fuel_type transmission condition status : Option String)
    (brand_id owner_id : Option Nat) (min_year max_year min_price max_price : Option Int) :
    Except ApiError CarListResult :=
  if limit < 1 || limit > 100 then .error (.validation "limit out of range")
  else
    let f1 : List CarRec :=
      if optStrTruthy search then
        let term := search.getD ""
        db.cars.filter (fun c =>
          strILike c.model term || strILike c.color term || strILike c.plate term)
      else db.cars
    let f2 : List CarRec :=
      match car_type with | some v => f1.filter (fun c => c.car_type == v) | none => f1
    let f3 : List CarRec :=
      match color with | some v => f2.filter (fun c => c.color == v) | none => f2
    let f4 : List CarRec :=
      match fuel_type with | some v => f3.filter (fun c => c.fuel_type == v) | none => f3
    let f5 : List CarRec :=
      match transmission with | some v => f4.filter (fun c => c.transmission == v) | none => f4
    let f6 : List CarRec :=
      match condition with | some v => f5.filter (fun c => c.condition == v) | none => f5
    let f7 : List CarRec :=
      match status with | some v => f6.filter (fun c => c.status == v) | none => f6
    let f8 : List CarRec :=
      if optNatTruthy brand_id then f7.filter (fun c => c.brand_id == brand_id.getD 0) else f7
    let f9 : List CarRec :=
      if optNatTruthy owner_id then f8.filter (fun c => c.owner_id == owner_id.getD 0) else f8
    let f10 : List CarRec :=
      if optIntTruthy min_year then f9.filter (fun c => c.model_year ≥ min_year.getD 0) else f9
    let f11 : List CarRec :=
      if optIntTruthy max_year then f10.filter (fun c => c.model_year ≤ max_year.getD 0) else f10
    let f12 : List CarRec :=
      if optIntTruthy min_price then f11.filter (fun c => c.price ≥ min_price.getD 0) else f11
    let f13 : List CarRec :=
      if optIntTruthy max_price then f12.filter (fun c => c.price ≤ max_price.getD 0) else f12
    let total := f13.length
    let page := (f13.drop offset).take limit
    .ok { cars := page, offset := offset, limit := limit, total := total }

/-! ## Admin routers (`car_api/routers/admin/cars.py`, `admin/brands.py`) -/

namespace Admin

/-- `POST /admin/cars/` (`create_car_admin`): admin-only; brand existence,
owner existence, plate uniqueness; the created car's owner is the PAYLOAD's
`owner_id`. -/
def create_car (cfg : Config) (currentYear : Int) (db : DB) (cred : Credential)
    (raw : AdminCarCreateSchema) : Except ApiError (CarRec × DB) :=
  match require_admin cred db with
  | .error e => .error e
  | .ok _ =>
    match AdminCarCreateSchema.validate cfg currentYear raw with
    | .error e => .error e
    | .ok car =>
      if !(db.brandExists car.brand_id) then
        .error (.badRequest "A marca informada não existe.")
      else if !(db.userExists car.owner_id) then
        .error (.badRequest "O usuário proprietário informado não existe.")
      else if db.plateExists car.plate then
        .error (.badRequest "Já existe um carro cadastrado com esta placa.")
      else
        let nc : CarRec :=
          { id := db.freshCarId, car_type := car.car_type, model := car.model,
            factory_year := car.factory_year, model_year := car.model_year,
            color := car.color, plate := car.plate, fuel_type := car.fuel_type,
            transmission := car.transmission, condition := car.condition,
            status := car.status, mileage := car.mileage, price := car.price,
            description := car.description, brand_id := car.brand_id,
            owner_id := car.owner_id }
        .ok (nc, { db with cars := db.cars ++ [nc] })

/-- `DELETE /admin/cars/{car_id}` (`delete_car_admin`): admin-only; 404 when
missing; delete (any owner). -/
def delete_car (db : DB) (cred : Credential) (car_id : Nat) : Except ApiError DB :=
  match require_admin cred db with
  | .error e => .error e
  | .ok _ =>
    match db.carById car_id with
    | none => .error (.notFound "Carro não encontrado.")
    | some _ => .ok { db with cars := db.cars.filter (fun c => c.id != car_id) }

/-- `DELETE /admin/brands/{brand_id}` (admin `delete_brand`): admin-only;
400 when the brand exists and has associated cars (checked FIRST), then 404
when missing, then delete (model-level cascade as in the public path). -/
def delete_brand (db : DB) (cred : Credential) (brand_id : Nat) : Except ApiError DB :=
  match require_admin cred db with
  | .error e => .error e
  | .ok _ =>
    if db.brandHasCars brand_id then
      .error (.badRequest "Não é possível deletar a marca porque existem carros associados.")
    else
      match db.brandById brand_id with
      | none => .error (.notFound "Marca não encontrada.")
      | some _ =>
          .ok { db with
                brands := db.brands.filter (fun b => b.id != brand_id),
                cars := db.cars.filter (fun c => c.brand_id != brand_id) }

end Admin

/-! ## Concrete fixtures used by counterexamples and witnesses -/

/-- A concrete configuration (the values of `.env` are free; claims hold for
all configurations, the fixtures just need one). -/
def cfgEx : Config :=
  { MIN_FACTORY_YEAR := 1900, MAX_FUTURE_YEAR := 1, MAX_PRICE := 10000000,
    MAX_MILEAGE := 1000000, MAX_BRAND_DESCRIPTION := 500 }

def yearEx : Int := 2025

def alice : UserRec :=
  { id := 1, username := "alice", full_name := "Alice Silva", email := "alice@carapi.com",
    password := "hash1", role := .user, is_active := true }

def bruno : UserRec :=
  { id := 2, username := "bruno", full_name := "Bruno Souza", email := "bruno@carapi.com",
    password := "hash2", role := .user, is_active := true }

def adminUser : UserRec :=
  { id := 3, username := "carla", full_name := "Carla Gestora", email := "carla@carapi.com",
    password := "hash3", role := .admin, is_active := true }

def toyota : BrandRec := { id := 1, name := "Toyota", description := none, is_active := true }

def honda : BrandRec := { id := 2, name := "Honda", description := none, is_active := true }

def carOne : CarRec :=
  { id := 1, car_type := "sedan", model := "Corolla", factory_year := 2020,
    model_year := 2021, color := "black", plate := "ABC1234", fuel_type := "flex",
    transmission := "manual", condition := "used", status := "available",
    mileage := 1000, price := 50000, description := none, brand_id := 1, owner_id := 1 }

def carTwo : CarRec :=
  { id := 2, car_type := "suv", model := "HRV", factory_year := 2022,
    model_year := 2022, color := "white", plate := "DEF1G23", fuel_type := "flex",
    transmission := "automatic", condition := "used", status := "available",
    mileage := 500, price := 90000, description := none, brand_id := 1, owner_id := 2 }

/-! ## C1 — self-service profile mutation -/

def dbUsersOnly : DB := { users := [alice], brands := [], cars := [] }

/-- C1 (code bug): the spec says profile update/delete are `PUT/DELETE
/users/me`, require authentication (401 without valid credentials) and only
touch the caller's own profile; but `routers/users.py` exposes
`PUT/DELETE /users/{user_id}` with NO authentication dependency at all —
the handlers take no credential, and with no credential of any kind a caller
updates and deletes user 1 successfully.  (The repository's own tests call
`PUT/DELETE /api/v1/users/me` with bearer tokens and expect 401 without
them; no such route exists.) -/
theorem c1_users_router_has_no_auth :
    update_user (fun p => p) dbUsersOnly 1 { full_name := some "Hacked Name" } =
      .ok ({ alice with full_name := "Hacked Name" },
           { users := [{ alice with full_name := "Hacked Name" }], brands := [], cars := [] }) ∧
    delete_user dbUsersOnly 1 = .ok { users := [], brands := [], cars := [] } :=
  ⟨rfl, rfl⟩

/-! ## C5 — update_car brand / owner "existence" checks -/

def dbFive : DB := { users := [alice, bruno], brands := [toyota, honda], cars := [carOne] }

/-- C5 (code bug): on car update the brand / owner existence checks of
`update_car` count rows of the CARS table (`Car.brand_id == value`,
`Car.owner_id == value`) instead of consulting the brands / users tables:
brand 2 (Honda) exists but no car references it, so updating car 1 to
`brand_id=2` is rejected 400 "A marca informada não existe."; user 2 (bruno)
exists but owns no car, so `owner_id=2` is rejected 400 "O proprietário
informado não existe." — both against the claim (and against `create_car`,
which checks `Brand.id` / `User.id`). -/
theorem c5_update_car_checks_cars_table :
    update_car cfgEx yearEx dbFive (.bearer 1) 1 { brand_id := some 2 } =
      .error (.badRequest "A marca informada não existe.") ∧
    dbFive.brandById 2 = some honda ∧
    update_car cfgEx yearEx dbFive (.bearer 1) 1 { owner_id := some 2 } =
      .error (.badRequest "O proprietário informado não existe.") ∧
    dbFive.userById 2 = some bruno :=
  ⟨rfl, rfl, rfl, rfl⟩

/-! ## C7 — pagination totals -/

def dbSeven : DB := { users := [alice, bruno], brands := [toyota, honda], cars := [carOne, carTwo] }

/-- C7 (code bug): with 2 stored rows and `offset=0&limit=1`, the users and
brands list endpoints return `total = 1` — the LENGTH OF THE RETURNED PAGE —
while the cars list endpoint computes the total over the filtered query
before pagination and returns `total = 2` as the claim (and the repository's
own brand tests) require. -/
theorem c7_list_totals :
    list_brands dbSeven 0 1 none none =
      .ok { brands := [toyota], offset := 0, limit := 1, total := 1 } ∧
    list_users dbSeven 0 1 none =
      .ok { users := [alice], offset := 0, limit := 1, total := 1 } ∧
    list_cars dbSeven 0 1 none none none none none none none none none none none none none =
      .ok { cars := [carOne], offset := 0, limit := 1, total := 2 } :=
  ⟨rfl, rfl, rfl⟩

/-! ## C3 — owner existence on the self-service create path -/

def dbThree : DB := { users := [alice], brands := [toyota], cars := [] }

/-- A fully valid create payload whose `owner_id` (99) names no user. -/
def payloadGhostOwner : CarSchema :=
  { car_type := "sedan", model := "Corolla", factory_year := 2020, model_year := 2021,
    color := "black", fuel_type := "flex", transmission := "manual", condition := "used",
    status := "available", mileage := 1000, plate := "ABC1234", price := 50000,
    description := none, brand_id := 1, owner_id := 99 }

/-- C3 counterexample: the claim says the self-service create path performs
no owner-existence check and never fails for a nonexistent `owner_id` in the
body; but `create_car` checks `exists(User.id == car.owner_id)` on the
payload field: a valid payload with `owner_id=99` (no such user), submitted
by authenticated user 1, is rejected 400 "O proprietário informado não
existe." -/
theorem c3_counterexample :
    CarSchema.validate cfgEx yearEx payloadGhostOwner = .ok payloadGhostOwner ∧
    create_car cfgEx yearEx dbThree (.bearer 1) payloadGhostOwner =
      .error (.badRequest "O proprietário informado não existe.") :=
  ⟨rfl, rfl⟩

/-! ## C4 — who may update/delete a car -/

def dbFour : DB := { users := [alice, adminUser], brands := [toyota], cars := [carOne] }

/-- C4 counterexample: the claim says the car's owner OR AN ADMIN may
update/delete a car and only OTHER users get 403; but `verify_car_ownership`
has no admin bypass: the admin (user 3, role admin, not the owner of car 1)
receives 403 from both `PUT /cars/1` and `DELETE /cars/1`. -/
theorem c4_counterexample :
    adminUser.role = UserRole.admin ∧
    update_car cfgEx yearEx dbFour (.bearer 3) 1 {} =
      .error (.forbidden "Not enough permissions to access this car") ∧
    delete_car dbFour (.bearer 3) 1 =
      .error (.forbidden "Not enough permissions to access this car") :=
  ⟨rfl, rfl, rfl⟩

/-! ## C6 — duplicate username/email on registration -/

def johnUser : UserRec :=
  { id := 1, username := "john", full_name := "John Silva", email := "john@x.com",
    password := "hashj", role := .user, is_active := true }

def dbSix : DB := { users := [johnUser], brands := [], cars := [] }

/-- A registration whose email equals john's up to letter case only. -/
def reqCaseEmail : UserCreate :=
  { email := "John@x.com", full_name := "Bob Silva", username := "bob_silva",
    is_active := some true, password := "abc123" }

/-- C6 counterexample: the claim says registration conflicts when the email
matches an existing user's email up to letter case (emails lowercased before
comparison); but `create_user` compares emails EXACTLY (the lowercasing
`validate_email` is attached only to the login schema, not to `UserCreate`):
with "john@x.com" stored, registering "John@x.com" (same email up to case,
fresh username) SUCCEEDS. -/
theorem c6_counterexample :
    pyLower "John@x.com" = pyLower "john@x.com" ∧
    create_user (fun p => p) dbSix reqCaseEmail =
      .ok ({ id := 2, username := "bob_silva", full_name := "Bob Silva",
             email := "John@x.com", password := "abc123", role := .user, is_active := true },
           { users := [johnUser,
               { id := 2, username := "bob_silva", full_name := "Bob Silva",
                 email := "John@x.com", password := "abc123", role := .user,
                 is_active := true }], brands := [], cars := [] }) :=
  ⟨rfl, rfl⟩

/-! ## Error-kind lemmas -/

/-- Every failure of `get_current_user` is a 401. -/
theorem get_current_user_error_unauthorized {cred : Credential} {db : DB} {e : ApiError}
    (h : get_current_user cred db = .error e) : ∃ m, e = .unauthorized m := by
  unfold get_current_user at h
  repeat' split at h
  all_goals first
    | exact ⟨_, (Except.error.inj h).symm⟩
    | cases h

/-- Every failure of `BrandSchema.validate` is a 422. -/
theorem BrandSchema_validate_errors {cfg : Config} {raw : BrandSchema} {e : ApiError}
    (h : BrandSchema.validate cfg raw = .error e) : ∃ m, e = .validation m := by
  unfold BrandSchema.validate at h
  repeat' split at h
  all_goals first
    | exact ⟨_, (Except.error.inj h).symm⟩
    | cases h

/-- Every failure of `BrandUpdateSchema.validate` is a 422. -/
theorem BrandUpdateSchema_validate_errors {cfg : Config} {raw : BrandUpdateSchema}
    {e : ApiError} (h : BrandUpdateSchema.validate cfg raw = .error e) :
    ∃ m, e = .validation m := by
  unfold BrandUpdateSchema.validate at h
  repeat' split at h
  all_goals first
    | exact ⟨_, (Except.error.inj h).symm⟩
    | cases h

/-- A successful `validate_car_factory_year` returns its input unchanged. -/
theorem validate_car_factory_year_ok_eq {cfg : Config} {cy v w : Int}
    (h : validate_car_factory_year cfg cy v = .ok w) : w = v := by
  unfold validate_car_factory_year at h
  repeat' split at h
  all_goals first
    | exact (Except.ok.inj h).symm
    | cases h

/-! ## C2 — the public brands router enforces no auth -/

/-- C2: the public brands router's create, update and delete operations
enforce no authentication or role check: the handlers declare no security
dependency, so for every caller — any credential, or none — the outcome is
identical, and no outcome is ever 401 Unauthorized or 403 Forbidden. -/
theorem c2_brands_router_ignores_identity (cfg : Config) (cred cred' : Credential)
    (db : DB) (bp : BrandSchema) (bu : BrandUpdateSchema) (bid : Nat) :
    (create_brand cfg cred db bp = create_brand cfg cred' db bp ∧
     update_brand cfg cred db bid bu = update_brand cfg cred' db bid bu ∧
     delete_brand cred db bid = delete_brand cred' db bid) ∧
    (noAuthError (create_brand cfg cred db bp) = true ∧
     noAuthError (update_brand cfg cred db bid bu) = true ∧
     noAuthError (delete_brand cred db bid) = true) := by
  refine ⟨⟨rfl, rfl, rfl⟩, ?_, ?_, ?_⟩
  · unfold create_brand
    cases h : BrandSchema.validate cfg bp with
    | error e =>
        obtain ⟨m, rfl⟩ := BrandSchema_validate_errors h
        rfl
    | ok bd =>
        dsimp only
        split <;> rfl
  · unfold update_brand
    cases h : BrandUpdateSchema.validate cfg bu with
    | error e =>
        obtain ⟨m, rfl⟩ := BrandUpdateSchema_validate_errors h
        rfl
    | ok upd =>
        dsimp only
        cases hb : db.brandById bid with
        | none => rfl
        | some brand =>
            dsimp only
            split <;> rfl
  · unfold delete_brand
    split
    · rfl
    · split <;> rfl

/-! ## C8 — brand deletion blocked by associated cars -/

/-- C8: deleting an existing brand that has at least one associated car
fails with 400 on both the public and the admin path (the handler raises
before touching the store, so the brand and its cars are unchanged); once no
car references the brand, deletion succeeds on both paths and removes
exactly the brand, leaving the cars as they were. -/
theorem c8_brand_delete_blocked_iff_cars (cfg : Config) (cred : Credential) (db : DB)
    (bid : Nat) (brand : BrandRec) (adm : UserRec)
    (hb : db.brandById bid = some brand)
    (hadm : require_admin cred db = .ok adm) :
    (db.cars.any (fun c => c.brand_id == bid) = true →
      delete_brand cred db bid =
        .error (.badRequest "Não é possível deletar a marca porque existem carros associados a ela.") ∧
      Admin.delete_brand db cred bid =
        .error (.badRequest "Não é possível deletar a marca porque existem carros associados.")) ∧
    (db.cars.any (fun c => c.brand_id == bid) = false →
      delete_brand cred db bid =
        .ok { users := db.users, brands := db.brands.filter (fun b => b.id != bid),
              cars := db.cars } ∧
      Admin.delete_brand db cred bid =
        .ok { users := db.users, brands := db.brands.filter (fun b => b.id != bid),
              cars := db.cars }) := by
  have hhas : ∀ hc : db.cars.any (fun c => c.brand_id == bid) = true,
      db.brandHasCars bid = true := by
    intro hc
    unfold DB.brandHasCars
    rw [hb, hc]
    rfl
  have hnot : ∀ hc : db.cars.any (fun c => c.brand_id == bid) = false,
      db.brandHasCars bid = false := by
    intro hc
    unfold DB.brandHasCars
    rw [hc]
    simp
  have hcarsfix : ∀ hc : db.cars.any (fun c => c.brand_id == bid) = false,
      db.cars.filter (fun c => c.brand_id != bid) = db.cars := by
    intro hc
    apply filter_eq_self_of_all
    intro c hmem
    have := List.any_eq_false.mp hc c hmem
    simpa [bne] using this
  constructor
  · intro hc
    constructor
    · unfold delete_brand
      rw [if_pos (hhas hc)]
    · unfold Admin.delete_brand
      rw [hadm]
      rw [if_pos (hhas hc)]
  · intro hc
    constructor
    · unfold delete_brand
      rw [if_neg (by simp [hnot hc]), hb, hcarsfix hc]
    · unfold Admin.delete_brand
      rw [hadm]
      rw [if_neg (by simp [hnot hc]), hb, hcarsfix hc]

/-- Witness for `c8_brand_delete_blocked_iff_cars`: brand 1 (Toyota) has
car 1 attached, so both delete paths refuse with 400; admin credential is
user 3. -/
theorem c8_witness :
    delete_brand (.bearer 3) dbFour 1 =
      .error (.badRequest "Não é possível deletar a marca porque existem carros associados a ela.") ∧
    Admin.delete_brand dbFour (.bearer 3) 1 =
      .error (.badRequest "Não é possível deletar a marca porque existem carros associados.") :=
  (c8_brand_delete_blocked_iff_cars cfgEx (.bearer 3) dbFour 1 toyota adminUser rfl rfl).1 rfl

/-- Proof-side abbreviation: the car row the create handlers insert for
payload `car` with owner id `owner`. -/
def newCarRow (db : DB) (car : CarSchema) (owner : Nat) : CarRec :=
  { id := db.freshCarId, car_type := car.car_type, model := car.model,
    factory_year := car.factory_year, model_year := car.model_year,
    color := car.color, plate := car.plate, fuel_type := car.fuel_type,
    transmission := car.transmission, condition := car.condition,
    status := car.status, mileage := car.mileage, price := car.price,
    description := car.description, brand_id := car.brand_id, owner_id := owner }

/-- C3 (amended): on car creation the brand must exist and the plate must be
unused on both paths, and the owner-existence check runs on BOTH paths: the
self-service path validates the payload's `owner_id` against the users table
(even though the created car's owner is the authenticated caller), so a
valid payload with a nonexistent `owner_id` fails with 400 on either path;
on success the self-service car is owned by the caller and the admin car by
the payload's `owner_id`. -/
theorem c3_create_car_checks (cfg : Config) (cy : Int) (db : DB) (cred : Credential)
    (raw car : CarSchema) (u : UserRec)
    (hu : get_current_user cred db = .ok u)
    (hv : CarSchema.validate cfg cy raw = .ok car) :
    (db.brandExists car.brand_id = false →
      create_car cfg cy db cred raw = .error (.badRequest "A marca informada não existe.")) ∧
    (db.brandExists car.brand_id = true → db.userExists car.owner_id = false →
      create_car cfg cy db cred raw =
        .error (.badRequest "O proprietário informado não existe.")) ∧
    (db.brandExists car.brand_id = true → db.userExists car.owner_id = true →
      db.plateExists car.plate = true →
      create_car cfg cy db cred raw =
        .error (.badRequest "Já existe um carro cadastrado com esta placa.")) ∧
    (db.brandExists car.brand_id = true → db.userExists car.owner_id = true →
      db.plateExists car.plate = false →
      ∃ nc db', create_car cfg cy db cred raw = .ok (nc, db') ∧ nc.owner_id = u.id) ∧
    (∀ adm, require_admin cred db = .ok adm →
      (db.brandExists car.brand_id = false →
        Admin.create_car cfg cy db cred raw =
          .error (.badRequest "A marca informada não existe.")) ∧
      (db.brandExists car.brand_id = true → db.userExists car.owner_id = false →
        Admin.create_car cfg cy db cred raw =
          .error (.badRequest "O usuário proprietário informado não existe.")) ∧
      (db.brandExists car.brand_id = true → db.userExists car.owner_id = true →
        db.plateExists car.plate = true →
        Admin.create_car cfg cy db cred raw =
          .error (.badRequest "Já existe um carro cadastrado com esta placa.")) ∧
      (db.brandExists car.brand_id = true → db.userExists car.owner_id = true →
        db.plateExists car.plate = false →
        ∃ nc db', Admin.create_car cfg cy db cred raw = .ok (nc, db') ∧
          nc.owner_id = car.owner_id)) := by
  refine ⟨?_, ?_, ?_, ?_, ?_⟩
  · intro hb
    simp [create_car, hu, hv, hb]
  · intro hb hw
    simp [create_car, hu, hv, hb, hw]
  · intro hb hw hp
    simp [create_car, hu, hv, hb, hw, hp]
  · intro hb hw hp
    refine ⟨newCarRow db car u.id,
      { users := db.users, brands := db.brands, cars := db.cars ++ [newCarRow db car u.id] },
      ?_, by simp [newCarRow]⟩
    simp [create_car, newCarRow, hu, hv, hb, hw, hp]
  · intro adm hadm
    refine ⟨?_, ?_, ?_, ?_⟩
    · intro hb
      simp [Admin.create_car, AdminCarCreateSchema.validate, hadm, hv, hb]
    · intro hb hw
      simp [Admin.create_car, AdminCarCreateSchema.validate, hadm, hv, hb, hw]
    · intro hb hw hp
      simp [Admin.create_car, AdminCarCreateSchema.validate, hadm, hv, hb, hw, hp]
    · intro hb hw hp
      refine ⟨newCarRow db car car.owner_id,
        { users := db.users, brands := db.brands,
          cars := db.cars ++ [newCarRow db car car.owner_id] },
        ?_, by simp [newCarRow]⟩
      simp [Admin.create_car, AdminCarCreateSchema.validate, newCarRow, hadm, hv, hb, hw, hp]

/-- Witness for `c3_create_car_checks`: with brand 1 present and no user 99,
the self-service create of the valid payload is rejected 400 for the
payload's nonexistent owner. -/
theorem c3_witness :
    create_car cfgEx yearEx dbThree (.bearer 1) payloadGhostOwner =
      .error (.badRequest "O proprietário informado não existe.") :=
  (c3_create_car_checks cfgEx yearEx dbThree (.bearer 1) payloadGhostOwner
    payloadGhostOwner alice rfl rfl).2.1 rfl rfl

/-- C4 (amended): for every existing car, only the car's OWNER may update or
delete it through the `/cars` routes: any other authenticated user —
INCLUDING AN ADMIN — receives 403 (`verify_car_ownership` has no admin
bypass), and an unauthenticated caller (missing or invalid credentials,
unknown or inactive subject) receives 401.  Admins can delete arbitrary cars
only through the separate `/admin/cars` route; no admin update route
exists. -/
theorem c4_owner_only (cfg : Config) (cy : Int) (db : DB) (cred : Credential)
    (car_id : Nat) (car : CarRec) (upd updN : CarUpdateSchema)
    (hcar : db.carById car_id = some car)
    (hv : CarUpdateSchema.validate cfg cy upd = .ok updN) :
    (∀ e, get_current_user cred db = .error e →
      (∃ m, e = .unauthorized m) ∧
      update_car cfg cy db cred car_id upd = .error e ∧
      delete_car db cred car_id = .error e) ∧
    (∀ u, get_current_user cred db = .ok u → u.id ≠ car.owner_id →
      update_car cfg cy db cred car_id upd =
        .error (.forbidden "Not enough permissions to access this car") ∧
      delete_car db cred car_id =
        .error (.forbidden "Not enough permissions to access this car")) ∧
    (∀ u, get_current_user cred db = .ok u → u.id = car.owner_id →
      noAuthError (update_car cfg cy db cred car_id upd) = true ∧
      delete_car db cred car_id =
        .ok { users := db.users, brands := db.brands,
              cars := db.cars.filter (fun c => c.id != car_id) }) := by
  refine ⟨?_, ?_, ?_⟩
  · intro e he
    refine ⟨get_current_user_error_unauthorized he, ?_, ?_⟩
    · simp [update_car, he]
    · simp [delete_car, he]
  · intro u hu hne
    constructor
    · simp [update_car, hu, hv, hcar, verify_car_ownership, hne]
    · simp [delete_car, hu, hcar, verify_car_ownership, hne]
  · intro u hu heq
    constructor
    · unfold update_car
      simp only [hu, hv, hcar]
      unfold verify_car_ownership
      rw [if_neg (by simp [heq])]
      repeat' split
      all_goals first
        | rfl
        | simp_all
    · simp [delete_car, hu, hcar, verify_car_ownership, heq]

/-- Witness for `c4_owner_only`: authenticated non-owner user 2 gets 403
from both update and delete of car 1 (owned by user 1). -/
theorem c4_witness :
    update_car cfgEx yearEx dbFive (.bearer 2) 1 {} =
      .error (.forbidden "Not enough permissions to access this car") ∧
    delete_car dbFive (.bearer 2) 1 =
      .error (.forbidden "Not enough permissions to access this car") :=
  (c4_owner_only cfgEx yearEx dbFive (.bearer 2) 1 carOne {} {} rfl rfl).2.1
    bruno rfl (by decide)

/-- C6 (amended): for every existing user and every registration request
whose (validated) username equals that user's username, or whose email
EXACTLY equals that user's email — no lowercasing is applied at registration
(`validate_email` is attached only to the login schema) — user creation
fails with a 400 conflict, with the username check performed first. -/
theorem c6_duplicate_conflicts (hashFn : String → String) (db : DB)
    (raw user : UserCreate) (u : UserRec)
    (hv : UserCreate.validate raw = .ok user) (hmem : u ∈ db.users) :
    (user.username = u.username →
      create_user hashFn db raw = .error (.badRequest
        "Usename não disponível. Já existe um usuário cadastrado com este username.")) ∧
    (user.email = u.email →
      (create_user hashFn db raw = .error (.badRequest
        "Usename não disponível. Já existe um usuário cadastrado com este username.") ∨
       create_user hashFn db raw = .error (.badRequest
        "Email já existe. Já existe um usuário cadastrado com este email."))) := by
  constructor
  · intro hname
    have hex : db.usernameExists user.username = true := by
      unfold DB.usernameExists
      exact List.any_eq_true.mpr ⟨u, hmem, by simp [hname]⟩
    simp [create_user, hv, hex]
  · intro hemail
    by_cases hex : db.usernameExists user.username
    · left
      simp [create_user, hv, hex]
    · right
      have hee : db.emailExists user.email = true := by
        unfold DB.emailExists
        exact List.any_eq_true.mpr ⟨u, hmem, by simp [hemail]⟩
      simp [create_user, hv, hex, hee]

/-- Witness for `c6_duplicate_conflicts`: registering the username "john"
again (fresh email) conflicts with the username message. -/
theorem c6_witness :
    create_user (fun p => p) dbSix
      { email := "new@x.com", full_name := "New Person", username := "john",
        password := "abc123" } =
      .error (.badRequest
        "Usename não disponível. Já existe um usuário cadastrado com este username.") :=
  (c6_duplicate_conflicts (fun p => p) dbSix
    { email := "new@x.com", full_name := "New Person", username := "john",
      password := "abc123" }
    { email := "new@x.com", full_name := "New Person", username := "john",
      password := "abc123" }
    johnUser rfl (by simp [dbSix, johnUser])).1 rfl

/-! ## C9 — cross-field year validation -/

/-- `validate_car_model_year` on a value strictly below the factory year
fails with the cross-field message. -/
theorem validate_car_model_year_lt {cfg : Config} {cy v fy : Int} (h : v < fy) :
    validate_car_model_year cfg cy v fy =
      .error "O ano do modelo não pode ser anterior ao ano de fabricação." := by
  unfold validate_car_model_year
  rw [if_pos h]

/-- Characterization of a successful `validate_car_factory_year`. -/
theorem validate_car_factory_year_ok_iff {cfg : Config} {cy v w : Int} :
    validate_car_factory_year cfg cy v = .ok w ↔
      (¬(v < cfg.MIN_FACTORY_YEAR) ∧ ¬(v > cy + cfg.MAX_FUTURE_YEAR) ∧ w = v) := by
  unfold validate_car_factory_year
  by_cases h1 : v < cfg.MIN_FACTORY_YEAR
  · simp [h1]
  · by_cases h2 : v > cy + cfg.MAX_FUTURE_YEAR
    · simp [h1, h2]
    · simp [h1, h2, eq_comm]

/-- Characterization of a successful `validate_car_model_year`. -/
theorem validate_car_model_year_ok_iff {cfg : Config} {cy v fy w : Int} :
    validate_car_model_year cfg cy v fy = .ok w ↔
      (¬(v < fy) ∧ ¬(v > cy + cfg.MAX_FUTURE_YEAR) ∧ w = v) := by
  unfold validate_car_model_year
  by_cases h1 : v < fy
  · simp [h1]
  · by_cases h2 : v > cy + cfg.MAX_FUTURE_YEAR
    · simp [h1, h2]
    · simp [h1, h2, eq_comm]

/-- Every failure of `CarSchema.validate` is a 422. -/
theorem CarSchema_validate_errors {cfg : Config} {cy : Int} {raw : CarSchema}
    {e : ApiError} (h : CarSchema.validate cfg cy raw = .error e) :
    ∃ m, e = .validation m := by
  unfold CarSchema.validate at h
  repeat' split at h
  all_goals first
    | exact ⟨_, (Except.error.inj h).symm⟩
    | cases h

/-- A payload whose model year precedes its factory year never passes
`CarSchema.validate`. -/
theorem CarSchema_validate_years_reject {cfg : Config} {cy : Int} {raw q : CarSchema}
    (hlt : raw.model_year < raw.factory_year)
    (h : CarSchema.validate cfg cy raw = .ok q) : False := by
  unfold CarSchema.validate at h
  repeat' split at h
  all_goals try (cases h)
  all_goals simp_all [validate_car_factory_year_ok_iff, validate_car_model_year_ok_iff]

/-- C9: a car create payload with `model_year < factory_year` is always
rejected with a validation (422) error; `model_year = factory_year` always
passes the cross-field check (`validate_car_model_year` succeeds whenever the
upper bound also holds, and never fails with the cross-field message on equal
years); and on partial update, a payload whose merged `model_year` is
strictly below its merged `factory_year` (stored row valid) is always
rejected — never applied — and, when the payload touches nothing but years,
the rejection carries exactly the cross-field validation message. -/
theorem c9_year_validation (cfg : Config) (cy : Int) :
    (∀ raw : CarSchema, raw.model_year < raw.factory_year →
      ∃ m, CarSchema.validate cfg cy raw = .error (.validation m)) ∧
    (∀ v : Int, v ≤ cy + cfg.MAX_FUTURE_YEAR →
      validate_car_model_year cfg cy v v = .ok v) ∧
    (∀ v fy : Int, v = fy →
      validate_car_model_year cfg cy v fy ≠
        .error "O ano do modelo não pode ser anterior ao ano de fabricação.") ∧
    (∀ (db : DB) (cred : Credential) (car_id : Nat) (car : CarRec)
        (upd updN : CarUpdateSchema),
      db.carById car_id = some car →
      CarUpdateSchema.validate cfg cy upd = .ok updN →
      car.factory_year ≤ car.model_year →
      updN.model_year.getD car.model_year < updN.factory_year.getD car.factory_year →
      (∀ r, update_car cfg cy db cred car_id upd ≠ .ok r) ∧
      (∀ u, get_current_user cred db = .ok u → u.id = car.owner_id →
        updN.plate = none → updN.brand_id = none → updN.owner_id = none →
        update_car cfg cy db cred car_id upd =
          .error (.validation
            "O ano do modelo não pode ser anterior ao ano de fabricação."))) := by
  refine ⟨?_, ?_, ?_, ?_⟩
  · intro raw hlt
    cases h : CarSchema.validate cfg cy raw with
    | error e =>
        obtain ⟨m, rfl⟩ := CarSchema_validate_errors h
        exact ⟨m, rfl⟩
    | ok q => exact absurd h (fun hh => CarSchema_validate_years_reject hlt hh)
  · intro v hle
    unfold validate_car_model_year
    rw [if_neg (lt_irrefl v), if_neg (by omega)]
  · intro v fy hvfy
    unfold validate_car_model_year
    rw [if_neg (by omega)]
    split <;> simp
  · intro db cred car_id car upd updN hcar hv hstore hviol
    have hsome : (updN.factory_year.isSome || updN.model_year.isSome) = true := by
      cases hfy : updN.factory_year with
      | some _ => simp [hfy]
      | none =>
        cases hmy : updN.model_year with
        | some _ => simp [hfy, hmy]
        | none =>
            rw [hfy, hmy] at hviol
            simp only [Option.getD_none] at hviol
            omega
    constructor
    · intro r
      unfold update_car
      cases hu : get_current_user cred db with
      | error e => simp
      | ok u =>
        simp only [hv, hcar]
        by_cases hid : u.id = car.owner_id
        · unfold verify_car_ownership
          rw [if_neg (by simp [hid])]
          dsimp only
          rw [if_pos hsome, validate_car_model_year_lt hviol]
          split
          · simp
          · split
            · simp
            · split
              · simp
              · simp
        · unfold verify_car_ownership
          rw [if_pos hid]
          simp
    · intro u hu hid hplate hbrand howner
      unfold update_car
      simp only [hu, hv, hcar]
      unfold verify_car_ownership
      rw [if_neg (by simp [hid])]
      dsimp only
      rw [if_neg (by simp [hplate]), if_neg (by simp [hbrand, optNatTruthy]),
        if_neg (by simp [howner, optNatTruthy])]
      rw [if_pos hsome, validate_car_model_year_lt hviol]

/-- Witness for `c9_year_validation`: a create payload with
`model_year = 2019 < factory_year = 2020` is rejected with 422; equal years
2021/2021 pass; the year-only update `model_year := 2019` of car 1
(factory 2020) is never applied and is rejected with the cross-field
message. -/
theorem c9_witness :
    (∃ m, CarSchema.validate cfgEx yearEx
        { payloadGhostOwner with model_year := 2019 } = .error (.validation m)) ∧
    validate_car_model_year cfgEx yearEx 2021 2021 = .ok 2021 ∧
    (∀ r, update_car cfgEx yearEx dbFive (.bearer 1) 1
        { model_year := some 2019 } ≠ .ok r) ∧
    update_car cfgEx yearEx dbFive (.bearer 1) 1 { model_year := some 2019 } =
      .error (.validation "O ano do modelo não pode ser anterior ao ano de fabricação.") := by
  have h := c9_year_validation cfgEx yearEx
  have h4 := h.2.2.2 dbFive (.bearer 1) 1 carOne { model_year := some 2019 }
    { model_year := some 2019 } rfl rfl (by decide) (by decide)
  exact ⟨h.1 { payloadGhostOwner with model_year := 2019 } (by decide),
    h.2.1 2021 (by decide),
    h4.1,
    h4.2 alice rfl (by decide) rfl rfl rfl⟩

end CarApi
